import Mathlib

/-!
Offline-first task sync engine: a shallow embedding.

This file embeds the offline sync engine of the repository
(`src/store/thunks/syncThunks.ts`, `src/store/slices/tasksSlice.ts`,
`src/store/slices/syncSlice.ts`, `src/config/constants.ts`,
`src/types/index.ts`) into Lean and proves properties of it.

JavaScript objects keyed by string ids (`Record<string, Task>`,
`Record<string, SyncQueue>`) are embedded as association lists in
insertion order, since `Object.keys` enumerates non-numeric string keys
in insertion order and both maps only ever use generated string ids.
Property assignment `m[k] = v` replaces in place when the key exists and
appends otherwise; `delete m[k]` removes the entry; in-place mutation of
a looked-up object is a value replacement at the same key.
-/

namespace SyncEngine

/-- Association map in insertion order, embedding a JS `Record<string, α>`. -/
abbrev AssocMap (α : Type) := List (String × α)

namespace AssocMap

/-- `m[k]` lookup: first entry whose key equals `k`. -/
def find? {α : Type} (m : AssocMap α) (k : String) : Option α :=
  match m with
  | [] => none
  | (k', v) :: rest => if k' = k then some v else find? rest k

/-- JS property assignment `m[k] = v`: replace in place if the key exists,
append otherwise. -/
def set {α : Type} (m : AssocMap α) (k : String) (v : α) : AssocMap α :=
  match m with
  | [] => [(k, v)]
  | (k', v') :: rest => if k' = k then (k, v) :: rest else (k', v') :: set rest k v

/-- JS `delete m[k]`. -/
def erase {α : Type} (m : AssocMap α) (k : String) : AssocMap α :=
  match m with
  | [] => []
  | (k', v') :: rest => if k' = k then rest else (k', v') :: erase rest k

/-- `Object.keys m`. -/
def keys {α : Type} (m : AssocMap α) : List String := m.map Prod.fst

/-- In-place mutation of the object `m[k]` looked up and then assigned to
(no key is added or removed; a missing key is a no-op). -/
def mutate {α : Type} (m : AssocMap α) (k : String) (f : α → α) : AssocMap α :=
  match m with
  | [] => []
  | (k', v) :: rest => if k' = k then (k', f v) :: rest else (k', v) :: mutate rest k f

end AssocMap

/-! ## Domain types (`src/types/index.ts`) -/

/-- `SyncStatus = 'PENDING' | 'SYNCED' | 'FAILED'`. -/
inductive SyncStatus
  | PENDING
  | SYNCED
  | FAILED
deriving DecidableEq, Repr

/-- `Operation = 'CREATE' | 'UPDATE' | 'DELETE'`. -/
inductive Operation
  | CREATE
  | UPDATE
  | DELETE
deriving DecidableEq, Repr

/-- `interface Task`. `amount: number` is embedded as `Int` (the claims do
not depend on fractional amounts). -/
structure Task where
  id : String
  title : String
  amount : Int
  createdAt : Nat
  updatedAt : Nat
  syncStatus : SyncStatus
  isDeleted : Option Bool := none
  localId : Option String := none
deriving DecidableEq, Repr

/-- `Partial<Task>`: every field optional, `some` meaning present. -/
structure TaskPatch where
  id : Option String := none
  title : Option String := none
  amount : Option Int := none
  createdAt : Option Nat := none
  updatedAt : Option Nat := none
  syncStatus : Option SyncStatus := none
  isDeleted : Option Bool := none
  localId : Option String := none
deriving DecidableEq, Repr

/-- `Object.assign(task, patch)`: each field present in the patch
overwrites the task's field. -/
def Task.assign (t : Task) (p : TaskPatch) : Task :=
  { id := p.id.getD t.id
    title := p.title.getD t.title
    amount := p.amount.getD t.amount
    createdAt := p.createdAt.getD t.createdAt
    updatedAt := p.updatedAt.getD t.updatedAt
    syncStatus := p.syncStatus.getD t.syncStatus
    isDeleted := p.isDeleted.or t.isDeleted
    localId := p.localId.or t.localId }

/-- View a full `Task` as a `Partial<Task>` with every field present (the
shape `api.createTask` / `api.updateTask` results take when passed as
`serverData`). -/
def Task.toPatch (t : Task) : TaskPatch :=
  { id := some t.id
    title := some t.title
    amount := some t.amount
    createdAt := some t.createdAt
    updatedAt := some t.updatedAt
    syncStatus := some t.syncStatus
    isDeleted := t.isDeleted
    localId := t.localId }

/-- `interface SyncQueue`: one queued sync operation. -/
structure SyncQueue where
  id : String
  taskId : String
  operation : Operation
  payload : TaskPatch
  retryCount : Nat
  lastError : Option String := none
  createdAt : Nat
  processedAt : Option Nat := none
deriving DecidableEq, Repr

/-- `Partial<SyncQueue>` as passed to `updateSyncOperation` (only the
fields the code ever updates are included; all others are never written). -/
structure SyncQueuePatch where
  retryCount : Option Nat := none
  lastError : Option String := none
  processedAt : Option Nat := none
deriving DecidableEq, Repr

/-- `Object.assign(operation, updates)` for a queue entry. -/
def SyncQueue.assign (op : SyncQueue) (p : SyncQueuePatch) : SyncQueue :=
  { op with
    retryCount := p.retryCount.getD op.retryCount
    lastError := p.lastError.or op.lastError
    processedAt := p.processedAt.or op.processedAt }

/-- `NetworkState` slice of the root state. `isInternetReachable` is
`boolean | null`; `none` embeds `null`. -/
structure NetworkState where
  isConnected : Bool
  isInternetReachable : Option Bool
deriving DecidableEq, Repr

/-- `state.network.isConnected && state.network.isInternetReachable !== false`. -/
def NetworkState.isOnline (n : NetworkState) : Bool :=
  n.isConnected && decide (n.isInternetReachable ≠ some false)

/-- The root-state slices the sync engine reads and writes:
`state.tasks.items`, `state.sync.queue`, `state.network`. -/
structure RootState where
  tasks : AssocMap Task
  queue : AssocMap SyncQueue
  network : NetworkState
deriving DecidableEq, Repr

/-! ## Constants (`src/config/constants.ts`) -/

def MAX_RETRIES : Nat := 3

def BACKOFF_MULTIPLIER : Nat := 2

/-- `BACKOFF_DELAY = 1000 * Math.pow(BACKOFF_MULTIPLIER, operation.retryCount)`
(syncThunks.ts line 189). -/
def BACKOFF_DELAY (retryCount : Nat) : Nat :=
  1000 * BACKOFF_MULTIPLIER ^ retryCount

/-! ## Reducers

`tasksSlice.ts` and `syncSlice.ts` reducers used by the sync engine.
Each is a pure function from the slice state (plus the action payload)
to the new slice state. -/

/-- `tasksSlice` reducer `updateSyncStatus`: if the task under `id` exists,
set its `syncStatus` and then `Object.assign` the optional `serverData`
onto it (in that order, as in the source); otherwise a no-op. The map's
keys are never touched. -/
def updateSyncStatus (items : AssocMap Task) (id : String) (status : SyncStatus)
    (serverData : Option TaskPatch) : AssocMap Task :=
  items.mutate id (fun t =>
    let t' : Task := { t with syncStatus := status }
    match serverData with
    | some p => t'.assign p
    | none => t')

/-- `tasksSlice` reducer `updateTaskLocal`: merge `updates` onto the task
under `id` and bump `updatedAt` to `Date.now()` (passed as `now`). -/
def updateTaskLocal (items : AssocMap Task) (id : String) (updates : TaskPatch)
    (now : Nat) : AssocMap Task :=
  items.mutate id (fun t => { t.assign updates with updatedAt := now })

/-- `syncSlice` reducer `enqueueSyncOperation`: `state.queue[op.id] = op`. -/
def enqueueSyncOperation (queue : AssocMap SyncQueue) (op : SyncQueue) :
    AssocMap SyncQueue :=
  queue.set op.id op

/-- `syncSlice` reducer `removeSyncOperation`: `delete state.queue[opId]`. -/
def removeSyncOperation (queue : AssocMap SyncQueue) (opId : String) :
    AssocMap SyncQueue :=
  queue.erase opId

/-- `syncSlice` reducer `updateSyncOperation`: merge `updates` onto the
queue entry under `id` if it exists, else no-op. -/
def updateSyncOperation (queue : AssocMap SyncQueue) (id : String)
    (updates : SyncQueuePatch) : AssocMap SyncQueue :=
  queue.mutate id (fun op => op.assign updates)

/-! ## Remote gateway (`src/services/firebaseAPI.ts`) -/

/-- `class APIError extends Error`: status, message, retryable flag. -/
structure APIError where
  status : Nat
  message : String
  retryable : Bool
deriving DecidableEq, Repr

/-- Outcome of one remote call: the server task on success, an `APIError`
on failure. A thrown non-`APIError` behaves in the drain's catch exactly
like an `APIError` with `retryable = true` carrying its message
(`error instanceof APIError ? error.retryable : true`), so `APIError`
outcomes model every thrown error. -/
abbrev ApiOutcome := Except APIError Task

/-- The remote gateway as a deterministic oracle: for a queue entry, the
outcome of the one remote call the drain issues for it (`api.createTask`
for CREATE, `api.updateTask` for UPDATE). -/
abbrev Api := SyncQueue → ApiOutcome

/-! ## The drain (`processSyncQueue`, syncThunks.ts lines 158-288)

Within a single drain the loop is sequential: `syncInProgressMap` gains
the entry's `taskId` right before `await syncPromise` and loses it right
after, so at every `syncInProgressMap.has` check of the same drain the
map is empty and no entry is ever skipped. The embedding therefore
processes every snapshot entry.

The loop iterates `Object.keys(syncQueue)` of the queue snapshot read at
drain start and reads each `operation = syncQueue[opId]` from that same
snapshot; dispatches mutate the live store, which is threaded separately. -/

/-- One element of the `results` array:
`{ opId: string; success: boolean; error?: string }`. -/
structure OpResult where
  opId : String
  success : Bool
  error : Option String := none
deriving DecidableEq, Repr

/-- Everything one iteration of the drain loop produces for one snapshot
entry: the new live task map and queue, the pushed result, the backoff
wait performed (in ms, `none` when no `setTimeout` ran), whether a remote
call was issued, and the increments to the two counters. -/
structure StepOutcome where
  tasks : AssocMap Task
  queue : AssocMap SyncQueue
  result : OpResult
  waitedMs : Option Nat
  remoteCalled : Bool
  succInc : Nat
  failInc : Nat
deriving DecidableEq, Repr

/-- The body of one drain-loop iteration (syncThunks.ts lines 187-275) on
snapshot entry `(opId, operation)`, threading the live `tasks` and `queue`. -/
def processOp (api : Api) (tasks : AssocMap Task) (queue : AssocMap SyncQueue)
    (opId : String) (operation : SyncQueue) : StepOutcome :=
  if operation.retryCount ≥ MAX_RETRIES then
    -- mark task as FAILED when max retries exceeded; no wait, no call
    { tasks := updateSyncStatus tasks operation.taskId .FAILED none
      queue := queue
      result := { opId := opId, success := false, error := some "Max retries exceeded" }
      waitedMs := none
      remoteCalled := false
      succInc := 0
      failInc := 1 }
  else
    -- wait before retry (setTimeout runs only when retryCount > 0)
    let waited : Option Nat :=
      if operation.retryCount > 0 then some (BACKOFF_DELAY operation.retryCount) else none
    match operation.operation with
    | .DELETE =>
      -- the switch has cases only for CREATE and UPDATE: a DELETE entry
      -- falls through with no remote call, then results.push success and
      -- successCount++ run as after any non-throwing switch
      { tasks := tasks
        queue := queue
        result := { opId := opId, success := true }
        waitedMs := waited
        remoteCalled := false
        succInc := 1
        failInc := 0 }
    | _ =>
      match api operation with
      | .ok serverTask =>
        -- update task with server data, mark SYNCED, dequeue, count success
        { tasks := updateSyncStatus tasks operation.taskId .SYNCED (some serverTask.toPatch)
          queue := removeSyncOperation queue opId
          result := { opId := opId, success := true }
          waitedMs := waited
          remoteCalled := true
          succInc := 1
          failInc := 0 }
      | .error e =>
        if e.retryable && operation.retryCount < MAX_RETRIES then
          -- mark for retry: bump retryCount, push failed result, no counter
          { tasks := tasks
            queue := updateSyncOperation queue opId { retryCount := some (operation.retryCount + 1) }
            result := { opId := opId, success := false, error := some e.message }
            waitedMs := waited
            remoteCalled := true
            succInc := 0
            failInc := 0 }
        else
          -- permanent failure: mark task FAILED, count failed, queue untouched
          { tasks := updateSyncStatus tasks operation.taskId .FAILED none
            queue := queue
            result := { opId := opId, success := false, error := some e.message }
            waitedMs := waited
            remoteCalled := true
            succInc := 0
            failInc := 1 }

/-- Per-entry drain trace: backoff wait and whether a remote call happened. -/
structure TraceEntry where
  opId : String
  waitedMs : Option Nat
  remoteCalled : Bool
deriving DecidableEq, Repr

/-- The summary `processSyncQueue` resolves with:
`{ successCount, failureCount, results }` (the empty-queue early return
carries no `results`; it is embedded as the empty list). -/
structure DrainSummary where
  successCount : Nat
  failureCount : Nat
  results : List OpResult
deriving DecidableEq, Repr

/-- Full outcome of a drain: final live task map and queue, what was
handed to `storageService.saveTasks` / `saveSyncQueue` (`none` when the
early returns skip persistence), the summary, and the trace. -/
structure DrainOutcome where
  tasks : AssocMap Task
  queue : AssocMap SyncQueue
  saved : Option (AssocMap Task × AssocMap SyncQueue)
  summary : DrainSummary
  trace : List TraceEntry
deriving DecidableEq, Repr

/-- Loop accumulator for the drain. -/
structure LoopState where
  tasks : AssocMap Task
  queue : AssocMap SyncQueue
  successCount : Nat
  failureCount : Nat
  results : List OpResult
  trace : List TraceEntry
deriving DecidableEq, Repr

/-- One drain-loop iteration folded over the snapshot entries. -/
def drainStep (api : Api) (s : LoopState) (entry : String × SyncQueue) : LoopState :=
  let r := processOp api s.tasks s.queue entry.1 entry.2
  { tasks := r.tasks
    queue := r.queue
    successCount := s.successCount + r.succInc
    failureCount := s.failureCount + r.failInc
    results := s.results ++ [r.result]
    trace := s.trace ++ [⟨entry.1, r.waitedMs, r.remoteCalled⟩] }

/-- `processSyncQueue`: abort when offline; no-op summary on an empty
queue (before the persistence lines, so nothing is saved); otherwise run
the loop over the snapshot and then persist — the source persists
`state.tasks.items` and `state.sync.queue` from the `getState()` snapshot
taken before the loop, so `saved` records the initial maps, not the final
ones. -/
def processSyncQueue (api : Api) (st : RootState) : Except String DrainOutcome :=
  if ¬ st.network.isOnline then
    .error "No internet connection"
  else if st.queue.isEmpty then
    .ok { tasks := st.tasks
          queue := st.queue
          saved := none
          summary := { successCount := 0, failureCount := 0, results := [] }
          trace := [] }
  else
    let final := st.queue.foldl (drainStep api)
      { tasks := st.tasks, queue := st.queue, successCount := 0, failureCount := 0
        results := [], trace := [] }
    .ok { tasks := final.tasks
          queue := final.queue
          saved := some (st.tasks, st.queue)
          summary := { successCount := final.successCount
                       failureCount := final.failureCount
                       results := final.results }
          trace := final.trace }

/-! ## Mutation-intent and retry thunks -/

/-- The payload `updateTask` resolves with: `{ id, updates, syncOp }`. -/
structure UpdateTaskResult where
  id : String
  updates : TaskPatch
  syncOp : SyncQueue
deriving DecidableEq, Repr

/-- `updateTask` thunk (syncThunks.ts lines 118-155): reject when the task
is missing or SYNCED, else resolve with the patch and a fresh UPDATE
operation. `Date.now()` and `generateId()` are passed in as `now` and
`syncQueueId`. The thunk itself mutates nothing. -/
def updateTask (st : RootState) (id : String) (updates : TaskPatch)
    (now : Nat) (syncQueueId : String) : Except String UpdateTaskResult :=
  match st.tasks.find? id with
  | none => .error "Task not found"
  | some task =>
    if task.syncStatus = .SYNCED then
      .error "Cannot edit synced tasks"
    else
      .ok { id := id
            updates := updates
            syncOp := { id := syncQueueId
                        taskId := id
                        operation := .UPDATE
                        payload := updates
                        retryCount := 0
                        createdAt := now } }

/-- The full update intent as driven by `EditTaskScreen` (lines 75-83):
dispatch `updateTask`; on rejection (`unwrap` throws) the store is left
unchanged; on fulfillment dispatch `updateTaskLocal` and
`enqueueSyncOperation` with the resolved payload. -/
def updateTaskIntent (st : RootState) (id : String) (updates : TaskPatch)
    (now : Nat) (syncQueueId : String) : RootState :=
  match updateTask st id updates now syncQueueId with
  | .error _ => st
  | .ok r =>
    { st with
      tasks := updateTaskLocal st.tasks r.id r.updates now
      queue := enqueueSyncOperation st.queue r.syncOp }

/-- `retryFailedOperation` thunk (syncThunks.ts lines 294-304): the body
only returns `{ operationId }`. -/
def retryFailedOperation (operationId : String) : Except String String :=
  .ok operationId

/-- Effect of dispatching `retryFailedOperation` on the store: no slice in
the repository has a reducer or extraReducer for any `sync/retryOperation`
action and the thunk body dispatches nothing, so the state is unchanged and
no drain is started. -/
def retryFailedOperationDispatch (st : RootState) (operationId : String) :
    RootState × Except String String :=
  (st, retryFailedOperation operationId)

/-! ## Accessors over drain outcomes (projections used in statements) -/

/-- The queue the drain leaves in the store, when the drain did not abort. -/
def drainQueueAfter (api : Api) (st : RootState) : Option (AssocMap SyncQueue) :=
  (processSyncQueue api st).toOption.map DrainOutcome.queue

/-- The task map the drain leaves in the store, when the drain did not abort. -/
def drainTasksAfter (api : Api) (st : RootState) : Option (AssocMap Task) :=
  (processSyncQueue api st).toOption.map DrainOutcome.tasks

/-- The drain's `failureCount`, when the drain did not abort. -/
def drainFailed (api : Api) (st : RootState) : Option Nat :=
  (processSyncQueue api st).toOption.map (fun out => out.summary.failureCount)

/-- The drain's `successCount`, when the drain did not abort. -/
def drainSucceeded (api : Api) (st : RootState) : Option Nat :=
  (processSyncQueue api st).toOption.map (fun out => out.summary.successCount)

/-- What the drain handed to the storage service, when it did not abort. -/
def drainSaved (api : Api) (st : RootState) :
    Option (Option (AssocMap Task × AssocMap SyncQueue)) :=
  (processSyncQueue api st).toOption.map DrainOutcome.saved

/-! ## Concrete fixtures -/

/-- A locally created, not yet synced task. -/
def task1 : Task :=
  { id := "t1", title := "Milk", amount := 10, createdAt := 0, updatedAt := 0
    syncStatus := .PENDING, localId := some "t1" }

/-- A queued UPDATE for `task1` with a given retry count. -/
def updateOp (k : Nat) : SyncQueue :=
  { id := "op1", taskId := "t1", operation := .UPDATE
    payload := { title := some "Bread" }, retryCount := k, createdAt := 0 }

/-- A queued CREATE for `task1`. -/
def createOp : SyncQueue :=
  { id := "op1", taskId := "t1", operation := .CREATE
    payload := { title := some "Milk", amount := some 10 }, retryCount := 0
    createdAt := 0 }

/-- A queued DELETE for `task1` with a given retry count. -/
def deleteOp (k : Nat) : SyncQueue :=
  { id := "op1", taskId := "t1", operation := .DELETE
    payload := {}, retryCount := k, createdAt := 0 }

/-- Connected and reachable. -/
def onlineNet : NetworkState := { isConnected := true, isInternetReachable := some true }

/-- A root state holding `task1` and a single queue entry `op`. -/
def st1 (op : SyncQueue) : RootState :=
  { tasks := [("t1", task1)], queue := [("op1", op)], network := onlineNet }

/-- A non-retryable gateway rejection (HTTP 400). -/
def err400 : APIError := { status := 400, message := "Bad Request", retryable := false }

/-- A retryable gateway failure (HTTP 503). -/
def err503 : APIError := { status := 503, message := "Service Unavailable", retryable := true }

/-- A gateway that fails every call with `e`. -/
def apiFail (e : APIError) : Api := fun _ => .error e

/-- The server task a successful CREATE returns: server-assigned id. -/
def serverTask1 : Task :=
  { id := "srv9", title := "Milk", amount := 10, createdAt := 5, updatedAt := 5
    syncStatus := .SYNCED, localId := some "srv9" }

/-- A gateway that succeeds every call with `t`. -/
def apiOk (t : Task) : Api := fun _ => .ok t

/-- A task already confirmed by the server. -/
def taskS : Task :=
  { id := "t2", title := "Rice", amount := 4, createdAt := 0, updatedAt := 0
    syncStatus := .SYNCED, localId := some "t2" }

/-- A root state holding only the synced task `taskS` and an empty queue. -/
def stS : RootState :=
  { tasks := [("t2", taskS)], queue := [], network := onlineNet }

/-! ## Helper lemmas on the association-map embedding -/

theorem AssocMap.find?_mutate_self {α : Type} (m : AssocMap α) (k : String)
    (f : α → α) : AssocMap.find? (AssocMap.mutate m k f) k = (AssocMap.find? m k).map f := by
  induction m with
  | nil => rfl
  | cons e rest ih =>
    obtain ⟨a, b⟩ := e
    by_cases h : a = k
    · subst h
      simp [AssocMap.mutate, AssocMap.find?]
    · simp only [AssocMap.mutate, if_neg h]
      simp only [AssocMap.find?, if_neg h]
      exact ih

theorem AssocMap.find?_mutate_ne {α : Type} (m : AssocMap α) (k k' : String)
    (f : α → α) (h : k' ≠ k) :
    AssocMap.find? (AssocMap.mutate m k f) k' = AssocMap.find? m k' := by
  induction m with
  | nil => rfl
  | cons e rest ih =>
    obtain ⟨a, b⟩ := e
    by_cases he : a = k
    · subst he
      simp only [AssocMap.mutate, if_pos rfl]
      simp only [AssocMap.find?, if_neg (Ne.symm h)]
    · simp only [AssocMap.mutate, if_neg he]
      by_cases he' : a = k'
      · simp only [AssocMap.find?, if_pos he']
      · simp only [AssocMap.find?, if_neg he']
        exact ih

theorem AssocMap.keys_mutate {α : Type} (m : AssocMap α) (k : String)
    (f : α → α) : AssocMap.keys (AssocMap.mutate m k f) = AssocMap.keys m := by
  induction m with
  | nil => rfl
  | cons e rest ih =>
    obtain ⟨a, b⟩ := e
    by_cases h : a = k
    · subst h
      simp [AssocMap.mutate, AssocMap.keys]
    · simp only [AssocMap.mutate, if_neg h, AssocMap.keys, List.map_cons] at ih ⊢
      simpa using ih

theorem AssocMap.mutate_of_find?_none {α : Type} (m : AssocMap α) (k : String)
    (f : α → α) (h : AssocMap.find? m k = none) :
    AssocMap.mutate m k f = m := by
  induction m with
  | nil => rfl
  | cons e rest ih =>
    obtain ⟨a, b⟩ := e
    by_cases he : a = k
    · subst he
      simp [AssocMap.find?] at h
    · simp only [AssocMap.find?, if_neg he] at h
      simp only [AssocMap.mutate, if_neg he, ih h]

/-! ## Evaluation lemmas for the drain -/

theorem processOp_maxRetries (api : Api) (tasks : AssocMap Task)
    (queue : AssocMap SyncQueue) (opId : String) (op : SyncQueue)
    (h : op.retryCount ≥ MAX_RETRIES) :
    processOp api tasks queue opId op =
      { tasks := updateSyncStatus tasks op.taskId .FAILED none
        queue := queue
        result := { opId := opId, success := false, error := some "Max retries exceeded" }
        waitedMs := none
        remoteCalled := false
        succInc := 0
        failInc := 1 } := by
  unfold processOp
  rw [if_pos h]

theorem processOp_remote_success (api : Api) (tasks : AssocMap Task)
    (queue : AssocMap SyncQueue) (opId : String) (op : SyncQueue) (serverTask : Task)
    (hlt : op.retryCount < MAX_RETRIES) (hkind : op.operation ≠ .DELETE)
    (hapi : api op = .ok serverTask) :
    processOp api tasks queue opId op =
      { tasks := updateSyncStatus tasks op.taskId .SYNCED (some serverTask.toPatch)
        queue := removeSyncOperation queue opId
        result := { opId := opId, success := true }
        waitedMs := if op.retryCount > 0 then some (BACKOFF_DELAY op.retryCount) else none
        remoteCalled := true
        succInc := 1
        failInc := 0 } := by
  unfold processOp
  rw [if_neg (Nat.not_le.mpr hlt)]
  cases hop : op.operation with
  | DELETE => exact absurd hop hkind
  | CREATE => rw [hapi]
  | UPDATE => rw [hapi]

theorem processOp_remote_failure_retryable (api : Api) (tasks : AssocMap Task)
    (queue : AssocMap SyncQueue) (opId : String) (op : SyncQueue) (e : APIError)
    (hlt : op.retryCount < MAX_RETRIES) (hkind : op.operation ≠ .DELETE)
    (hapi : api op = .error e) (hr : e.retryable = true) :
    processOp api tasks queue opId op =
      { tasks := tasks
        queue := updateSyncOperation queue opId { retryCount := some (op.retryCount + 1) }
        result := { opId := opId, success := false, error := some e.message }
        waitedMs := if op.retryCount > 0 then some (BACKOFF_DELAY op.retryCount) else none
        remoteCalled := true
        succInc := 0
        failInc := 0 } := by
  unfold processOp
  rw [if_neg (Nat.not_le.mpr hlt)]
  cases hop : op.operation with
  | DELETE => exact absurd hop hkind
  | CREATE => rw [hapi]; simp [hr, hlt]
  | UPDATE => rw [hapi]; simp [hr, hlt]

theorem processOp_remote_failure_permanent (api : Api) (tasks : AssocMap Task)
    (queue : AssocMap SyncQueue) (opId : String) (op : SyncQueue) (e : APIError)
    (hlt : op.retryCount < MAX_RETRIES) (hkind : op.operation ≠ .DELETE)
    (hapi : api op = .error e) (hr : e.retryable = false) :
    processOp api tasks queue opId op =
      { tasks := updateSyncStatus tasks op.taskId .FAILED none
        queue := queue
        result := { opId := opId, success := false, error := some e.message }
        waitedMs := if op.retryCount > 0 then some (BACKOFF_DELAY op.retryCount) else none
        remoteCalled := true
        succInc := 0
        failInc := 1 } := by
  unfold processOp
  rw [if_neg (Nat.not_le.mpr hlt)]
  cases hop : op.operation with
  | DELETE => exact absurd hop hkind
  | CREATE => rw [hapi]; simp [hr]
  | UPDATE => rw [hapi]; simp [hr]

theorem processOp_delete (api : Api) (tasks : AssocMap Task)
    (queue : AssocMap SyncQueue) (opId : String) (op : SyncQueue)
    (hlt : op.retryCount < MAX_RETRIES) (hd : op.operation = .DELETE) :
    processOp api tasks queue opId op =
      { tasks := tasks
        queue := queue
        result := { opId := opId, success := true }
        waitedMs := if op.retryCount > 0 then some (BACKOFF_DELAY op.retryCount) else none
        remoteCalled := false
        succInc := 1
        failInc := 0 } := by
  unfold processOp
  rw [if_neg (Nat.not_le.mpr hlt)]
  rw [hd]

theorem processSyncQueue_single (api : Api) (st : RootState) (opId : String)
    (op : SyncQueue) (hq : st.queue = [(opId, op)]) (hon : st.network.isOnline = true) :
    processSyncQueue api st =
      .ok { tasks := (processOp api st.tasks st.queue opId op).tasks
            queue := (processOp api st.tasks st.queue opId op).queue
            saved := some (st.tasks, st.queue)
            summary := { successCount := (processOp api st.tasks st.queue opId op).succInc
                         failureCount := (processOp api st.tasks st.queue opId op).failInc
                         results := [(processOp api st.tasks st.queue opId op).result] }
            trace := [⟨opId, (processOp api st.tasks st.queue opId op).waitedMs,
                      (processOp api st.tasks st.queue opId op).remoteCalled⟩] } := by
  unfold processSyncQueue
  rw [hq]
  simp [hon, drainStep]

theorem foldl_drainStep_results_length (api : Api) (l : List (String × SyncQueue))
    (s : LoopState) :
    (l.foldl (drainStep api) s).results.length = s.results.length + l.length := by
  induction l generalizing s with
  | nil => simp
  | cons e rest ih =>
    simp only [List.foldl_cons, ih, drainStep]
    simp
    omega

theorem processSyncQueue_run (api : Api) (st : RootState)
    (hon : st.network.isOnline = true) (hne : st.queue ≠ []) :
    processSyncQueue api st =
      .ok { tasks := (st.queue.foldl (drainStep api)
              ⟨st.tasks, st.queue, 0, 0, [], []⟩).tasks
            queue := (st.queue.foldl (drainStep api)
              ⟨st.tasks, st.queue, 0, 0, [], []⟩).queue
            saved := some (st.tasks, st.queue)
            summary := { successCount := (st.queue.foldl (drainStep api)
                           ⟨st.tasks, st.queue, 0, 0, [], []⟩).successCount
                         failureCount := (st.queue.foldl (drainStep api)
                           ⟨st.tasks, st.queue, 0, 0, [], []⟩).failureCount
                         results := (st.queue.foldl (drainStep api)
                           ⟨st.tasks, st.queue, 0, 0, [], []⟩).results }
            trace := (st.queue.foldl (drainStep api)
              ⟨st.tasks, st.queue, 0, 0, [], []⟩).trace } := by
  unfold processSyncQueue
  rw [if_neg (by simp [hon]), if_neg (by simpa [List.isEmpty_iff] using hne)]

theorem processOp_waitedMs (api : Api) (tasks : AssocMap Task)
    (queue : AssocMap SyncQueue) (opId : String) (op : SyncQueue) :
    (processOp api tasks queue opId op).waitedMs =
      if op.retryCount ≥ MAX_RETRIES then none
      else if op.retryCount > 0 then some (BACKOFF_DELAY op.retryCount) else none := by
  by_cases h : op.retryCount ≥ MAX_RETRIES
  · rw [processOp_maxRetries api tasks queue opId op h, if_pos h]
  · have hlt : op.retryCount < MAX_RETRIES := Nat.not_le.mp h
    rw [if_neg h]
    cases hop : op.operation with
    | DELETE => rw [processOp_delete api tasks queue opId op hlt hop]
    | CREATE =>
      cases hapi : api op with
      | ok s =>
        rw [processOp_remote_success api tasks queue opId op s hlt (by simp [hop]) hapi]
      | error e =>
        cases hr : e.retryable
        · rw [processOp_remote_failure_permanent api tasks queue opId op e hlt
            (by simp [hop]) hapi hr]
        · rw [processOp_remote_failure_retryable api tasks queue opId op e hlt
            (by simp [hop]) hapi hr]
    | UPDATE =>
      cases hapi : api op with
      | ok s =>
        rw [processOp_remote_success api tasks queue opId op s hlt (by simp [hop]) hapi]
      | error e =>
        cases hr : e.retryable
        · rw [processOp_remote_failure_permanent api tasks queue opId op e hlt
            (by simp [hop]) hapi hr]
        · rw [processOp_remote_failure_retryable api tasks queue opId op e hlt
            (by simp [hop]) hapi hr]

/-! ## Claims -/

/-- C1, counterexample: a drain over one queued UPDATE that fails with a
non-retryable 400 marks the record FAILED and returns `failed = 1`, but the
operation is NOT removed — the queue still contains it afterwards,
refuting the claim that the queue no longer contains the operation. -/
theorem C1_counterexample :
    drainFailed (apiFail err400) (st1 (updateOp 0)) = some 1 ∧
    (drainTasksAfter (apiFail err400) (st1 (updateOp 0))).map
        (fun items => AssocMap.find? items "t1")
      = some (some { task1 with syncStatus := .FAILED }) ∧
    (drainQueueAfter (apiFail err400) (st1 (updateOp 0))).map
        (fun q => AssocMap.find? q "op1")
      = some (some (updateOp 0)) := by
  refine ⟨by decide, by decide, by decide⟩

/-- C1, amended: when a drain processes a queued operation (here a
single-entry queue) whose remote call fails with a non-retryable
`APIError`, the target record's syncStatus is set to FAILED and the
drain's failure count includes it (`failed = 1` for the single entry),
but the operation is left in the sync queue rather than removed. -/
theorem C1_nonretryable_marks_failed_keeps_op (api : Api) (st : RootState)
    (opId : String) (op : SyncQueue) (e : APIError) (t : Task)
    (hq : st.queue = [(opId, op)])
    (hon : st.network.isOnline = true)
    (hret : op.retryCount < MAX_RETRIES)
    (hkind : op.operation ≠ .DELETE)
    (hapi : api op = .error e)
    (hnr : e.retryable = false)
    (ht : AssocMap.find? st.tasks op.taskId = some t) :
    ∃ out, processSyncQueue api st = .ok out ∧
      out.summary.failureCount = 1 ∧
      out.queue = st.queue ∧
      AssocMap.find? out.queue opId = some op ∧
      AssocMap.find? out.tasks op.taskId = some { t with syncStatus := .FAILED } := by
  have hstep := processOp_remote_failure_permanent api st.tasks st.queue opId op e hret
    hkind hapi hnr
  refine ⟨_, processSyncQueue_single api st opId op hq hon, ?_, ?_, ?_, ?_⟩
  · rw [hstep]
  · rw [hstep]
  · rw [hstep]
    show AssocMap.find? st.queue opId = some op
    rw [hq]
    simp [AssocMap.find?]
  · rw [hstep]
    show AssocMap.find? (updateSyncStatus st.tasks op.taskId .FAILED none) op.taskId = _
    simp [updateSyncStatus, AssocMap.find?_mutate_self, ht]

/-- C1, witness for the amended theorem at the Scenario C input. -/
theorem C1_nonretryable_witness :
    ∃ out, processSyncQueue (apiFail err400) (st1 (updateOp 0)) = .ok out ∧
      out.summary.failureCount = 1 ∧
      out.queue = (st1 (updateOp 0)).queue ∧
      AssocMap.find? out.queue "op1" = some (updateOp 0) ∧
      AssocMap.find? out.tasks "t1" = some { task1 with syncStatus := .FAILED } :=
  C1_nonretryable_marks_failed_keeps_op (apiFail err400) (st1 (updateOp 0)) "op1"
    (updateOp 0) err400 task1 rfl (by decide) (by decide) (by decide) rfl rfl rfl

/-- C2: the task map and sync queue handed to durable storage at the end
of a completed drain loop are the `getState()` snapshots taken when the
drain started — so a drain whose loop dequeued a succeeding CREATE leaves
the in-memory queue empty while persisting the stale pre-drain queue that
still contains the operation, contradicting the write-through-after-
mutations behavior the spec describes (and the source's own comment
`Persist updated state`). -/
theorem C2_persists_predrain_snapshot (api : Api) (st : RootState)
    (hon : st.network.isOnline = true) (hne : st.queue ≠ []) :
    (∃ out, processSyncQueue api st = .ok out ∧ out.saved = some (st.tasks, st.queue)) ∧
    (drainSaved (apiOk serverTask1) (st1 createOp)
        = some (some ((st1 createOp).tasks, (st1 createOp).queue)) ∧
      drainQueueAfter (apiOk serverTask1) (st1 createOp) = some [] ∧
      (st1 createOp).queue ≠ []) := by
  refine ⟨⟨_, processSyncQueue_run api st hon hne, rfl⟩, by decide, by decide, by decide⟩

/-- C2, witness at the failing input: one queued CREATE succeeding. -/
theorem C2_persists_predrain_snapshot_witness :
    (∃ out, processSyncQueue (apiOk serverTask1) (st1 createOp) = .ok out ∧
      out.saved = some ((st1 createOp).tasks, (st1 createOp).queue)) ∧
    (drainSaved (apiOk serverTask1) (st1 createOp)
        = some (some ((st1 createOp).tasks, (st1 createOp).queue)) ∧
      drainQueueAfter (apiOk serverTask1) (st1 createOp) = some [] ∧
      (st1 createOp).queue ≠ []) :=
  C2_persists_predrain_snapshot (apiOk serverTask1) (st1 createOp) (by decide) (by decide)

/-- C3: dispatching `retryFailedOperation` changes nothing — the thunk
resolves with the bare operation id, no reducer consumes the action, so
no `retryCount` is reset to 0 and no drain is scheduled; after three
retryable failures the operation still has `retryCount = 3`. -/
theorem C3_retryFailedOperation_resets_nothing :
    (∀ (st : RootState) (operationId : String),
        retryFailedOperationDispatch st operationId = (st, .ok operationId)) ∧
    ((AssocMap.find?
        ((retryFailedOperationDispatch (st1 (updateOp 3)) "op1").1.queue) "op1").map
      SyncQueue.retryCount = some 3) :=
  ⟨fun _ _ => rfl, by decide⟩

/-- C4, counterexample: a drain over one queued UPDATE that fails with a
retryable 503 increments the operation's retryCount to 1 and leaves it
queued, but its `lastError` field stays `none` — the error message
("Service Unavailable") is never persisted into `lastError`, refuting
that part of the claim. -/
theorem C4_counterexample :
    (drainQueueAfter (apiFail err503) (st1 (updateOp 0))).map
        (fun q => (AssocMap.find? q "op1").map
          (fun op => (op.retryCount, op.lastError)))
      = some (some (1, none)) := by
  decide

/-- C4, amended: on a retryable failure with `retryCount < MAX_RETRIES`
the drain increments the operation's retryCount by exactly 1 and leaves
the operation in the queue (the stored entry equals the old one except
for retryCount, so `lastError` is left unchanged rather than set to the
error message, which is recorded only in the per-operation result), and
the record is not marked FAILED (the task map is untouched). -/
theorem C4_retryable_increments_leaves_queued (api : Api) (st : RootState)
    (opId : String) (op : SyncQueue) (e : APIError)
    (hq : st.queue = [(opId, op)])
    (hon : st.network.isOnline = true)
    (hret : op.retryCount < MAX_RETRIES)
    (hkind : op.operation ≠ .DELETE)
    (hapi : api op = .error e)
    (hr : e.retryable = true) :
    ∃ out, processSyncQueue api st = .ok out ∧
      AssocMap.find? out.queue opId = some { op with retryCount := op.retryCount + 1 } ∧
      (AssocMap.find? out.queue opId).map SyncQueue.lastError = some op.lastError ∧
      out.tasks = st.tasks ∧
      out.summary.results = [{ opId := opId, success := false, error := some e.message }] := by
  have hstep := processOp_remote_failure_retryable api st.tasks st.queue opId op e hret
    hkind hapi hr
  refine ⟨_, processSyncQueue_single api st opId op hq hon, ?_, ?_, ?_, ?_⟩
  · rw [hstep]
    show AssocMap.find?
      (updateSyncOperation st.queue opId { retryCount := some (op.retryCount + 1) }) opId = _
    rw [hq]
    simp [updateSyncOperation, AssocMap.mutate, AssocMap.find?,
      SyncQueue.assign, Option.or]
  · rw [hstep]
    show (AssocMap.find?
      (updateSyncOperation st.queue opId { retryCount := some (op.retryCount + 1) }) opId).map
        SyncQueue.lastError = _
    rw [hq]
    simp [updateSyncOperation, AssocMap.mutate, AssocMap.find?,
      SyncQueue.assign, Option.or]
  · rw [hstep]
  · rw [hstep]

/-- C4, witness for the amended theorem: one queued UPDATE failing 503. -/
theorem C4_retryable_witness :
    ∃ out, processSyncQueue (apiFail err503) (st1 (updateOp 0)) = .ok out ∧
      AssocMap.find? out.queue "op1" = some { updateOp 0 with retryCount := 0 + 1 } ∧
      (AssocMap.find? out.queue "op1").map SyncQueue.lastError
        = some (updateOp 0).lastError ∧
      out.tasks = (st1 (updateOp 0)).tasks ∧
      out.summary.results
        = [{ opId := "op1", success := false, error := some "Service Unavailable" }] :=
  C4_retryable_increments_leaves_queued (apiFail err503) (st1 (updateOp 0)) "op1"
    (updateOp 0) err503 rfl (by decide) (by decide) (by decide) rfl rfl

/-- C5: a queue entry with `retryCount >= MAX_RETRIES` (which equals 3)
gets its target record marked FAILED, triggers no remote call, is counted
as failed, stays in the queue, and the drain continues — every snapshot
entry of any completed drain produces a result entry. -/
theorem C5_retry_ceiling (api : Api) (tasks : AssocMap Task)
    (queue : AssocMap SyncQueue) (opId : String) (op : SyncQueue) (t : Task)
    (hret : op.retryCount ≥ MAX_RETRIES)
    (ht : AssocMap.find? tasks op.taskId = some t) :
    MAX_RETRIES = 3 ∧
    (processOp api tasks queue opId op).remoteCalled = false ∧
    (processOp api tasks queue opId op).failInc = 1 ∧
    (processOp api tasks queue opId op).succInc = 0 ∧
    (processOp api tasks queue opId op).queue = queue ∧
    AssocMap.find? (processOp api tasks queue opId op).tasks op.taskId
      = some { t with syncStatus := .FAILED } ∧
    ∀ st : RootState, st.network.isOnline = true → st.queue ≠ [] →
      ∃ out, processSyncQueue api st = .ok out ∧
        out.summary.results.length = st.queue.length := by
  rw [processOp_maxRetries api tasks queue opId op hret]
  refine ⟨rfl, rfl, rfl, rfl, rfl, ?_, ?_⟩
  · simp [updateSyncStatus, AssocMap.find?_mutate_self, ht]
  · intro st hon hne
    refine ⟨_, processSyncQueue_run api st hon hne, ?_⟩
    simp [foldl_drainStep_results_length]

/-- C5, witness: a queued UPDATE with retryCount 3 against a healthy
gateway. -/
theorem C5_retry_ceiling_witness :
    MAX_RETRIES = 3 ∧
    (processOp (apiOk serverTask1) [("t1", task1)] [("op1", updateOp 3)] "op1"
      (updateOp 3)).remoteCalled = false ∧
    (processOp (apiOk serverTask1) [("t1", task1)] [("op1", updateOp 3)] "op1"
      (updateOp 3)).failInc = 1 ∧
    (processOp (apiOk serverTask1) [("t1", task1)] [("op1", updateOp 3)] "op1"
      (updateOp 3)).succInc = 0 ∧
    (processOp (apiOk serverTask1) [("t1", task1)] [("op1", updateOp 3)] "op1"
      (updateOp 3)).queue = [("op1", updateOp 3)] ∧
    AssocMap.find? (processOp (apiOk serverTask1) [("t1", task1)] [("op1", updateOp 3)]
      "op1" (updateOp 3)).tasks "t1" = some { task1 with syncStatus := .FAILED } ∧
    ∀ st : RootState, st.network.isOnline = true → st.queue ≠ [] →
      ∃ out, processSyncQueue (apiOk serverTask1) st = .ok out ∧
        out.summary.results.length = st.queue.length :=
  C5_retry_ceiling (apiOk serverTask1) [("t1", task1)] [("op1", updateOp 3)] "op1"
    (updateOp 3) task1 (by decide) rfl

/-- C6: `updateTask` on an existing record with syncStatus SYNCED is
rejected, and the full screen-driven intent leaves the root state (task
map and sync queue) unchanged — no UPDATE operation is enqueued; on an
existing non-SYNCED record it resolves with the patch and a fresh UPDATE
operation carrying `retryCount = 0`. -/
theorem C6_edit_protection (st : RootState) (id : String) (updates : TaskPatch)
    (now : Nat) (syncQueueId : String) (t : Task)
    (ht : AssocMap.find? st.tasks id = some t) :
    (t.syncStatus = .SYNCED →
      updateTask st id updates now syncQueueId = .error "Cannot edit synced tasks" ∧
      updateTaskIntent st id updates now syncQueueId = st) ∧
    (t.syncStatus ≠ .SYNCED →
      updateTask st id updates now syncQueueId =
        .ok { id := id
              updates := updates
              syncOp := { id := syncQueueId, taskId := id, operation := .UPDATE
                          payload := updates, retryCount := 0, createdAt := now } }) := by
  constructor
  · intro hs
    have h1 : updateTask st id updates now syncQueueId = .error "Cannot edit synced tasks" := by
      unfold updateTask
      rw [ht]
      simp [hs]
    refine ⟨h1, ?_⟩
    unfold updateTaskIntent
    rw [h1]
  · intro hs
    unfold updateTask
    rw [ht]
    simp [hs]

/-- C6, witness: rejection on a SYNCED task, acceptance on a PENDING one. -/
theorem C6_edit_protection_witness :
    (updateTask stS "t2" { title := some "Oats" } 7 "q1" = .error "Cannot edit synced tasks" ∧
      updateTaskIntent stS "t2" { title := some "Oats" } 7 "q1" = stS) ∧
    updateTask (st1 (updateOp 0)) "t1" { title := some "Oats" } 7 "q1" =
      .ok { id := "t1"
            updates := { title := some "Oats" }
            syncOp := { id := "q1", taskId := "t1", operation := .UPDATE
                        payload := { title := some "Oats" }, retryCount := 0
                        createdAt := 7 } } :=
  ⟨(C6_edit_protection stS "t2" { title := some "Oats" } 7 "q1" taskS rfl).1 rfl,
    (C6_edit_protection (st1 (updateOp 0)) "t1" { title := some "Oats" } 7 "q1" task1
      rfl).2 (by decide)⟩

/-- C7: a queue entry with `retryCount = k` (1 ≤ k < MAX_RETRIES) waits
exactly `1000 * 2 ^ k` ms before the remote call, the backoff formula is
non-decreasing in k, no wait occurs for `retryCount = 0`, and the
concrete delays are 2000/4000/8000 ms for k = 1, 2, 3. -/
theorem C7_backoff_monotone (api : Api) (tasks : AssocMap Task)
    (queue : AssocMap SyncQueue) (opId : String) (op : SyncQueue) (k : Nat)
    (hk : op.retryCount = k) (h1 : 1 ≤ k) (h2 : k < MAX_RETRIES) :
    (processOp api tasks queue opId op).waitedMs = some (1000 * 2 ^ k) ∧
    (∀ j j' : Nat, j ≤ j' → BACKOFF_DELAY j ≤ BACKOFF_DELAY j') ∧
    (∀ (api' : Api) (tasks' : AssocMap Task) (queue' : AssocMap SyncQueue)
        (opId' : String) (op' : SyncQueue), op'.retryCount = 0 →
        (processOp api' tasks' queue' opId' op').waitedMs = none) ∧
    BACKOFF_DELAY 1 = 2000 ∧ BACKOFF_DELAY 2 = 4000 ∧ BACKOFF_DELAY 3 = 8000 := by
  refine ⟨?_, ?_, ?_, by decide, by decide, by decide⟩
  · rw [processOp_waitedMs, hk, if_neg (Nat.not_le.mpr h2),
      if_pos (show k > 0 by omega)]
    rfl
  · intro j j' hj
    have hpow : BACKOFF_MULTIPLIER ^ j ≤ BACKOFF_MULTIPLIER ^ j' :=
      Nat.pow_le_pow_right (by decide) hj
    exact Nat.mul_le_mul_left 1000 hpow
  · intro api' tasks' queue' opId' op' h0
    rw [processOp_waitedMs, h0]
    rfl

/-- C7, witness at `retryCount = 1`. -/
theorem C7_backoff_witness :
    (processOp (apiFail err503) [("t1", task1)] [("op1", updateOp 1)] "op1"
      (updateOp 1)).waitedMs = some (1000 * 2 ^ 1) ∧
    (∀ j j' : Nat, j ≤ j' → BACKOFF_DELAY j ≤ BACKOFF_DELAY j') ∧
    (∀ (api' : Api) (tasks' : AssocMap Task) (queue' : AssocMap SyncQueue)
        (opId' : String) (op' : SyncQueue), op'.retryCount = 0 →
        (processOp api' tasks' queue' opId' op').waitedMs = none) ∧
    BACKOFF_DELAY 1 = 2000 ∧ BACKOFF_DELAY 2 = 4000 ∧ BACKOFF_DELAY 3 = 8000 :=
  C7_backoff_monotone (apiFail err503) [("t1", task1)] [("op1", updateOp 1)] "op1"
    (updateOp 1) 1 rfl (by decide) (by decide)

/-- C8: `updateSyncStatus` never adds or removes a key of the task map
(key list preserved, entries under other keys untouched, no-op when the
id is absent); when the `serverData` patch carries a server-assigned id,
the stored record's `id` field becomes that server id while the record
stays under its original map key. -/
theorem C8_updateSyncStatus_frame (items : AssocMap Task) (id : String)
    (status : SyncStatus) (serverData : Option TaskPatch) :
    AssocMap.keys (updateSyncStatus items id status serverData) = AssocMap.keys items ∧
    (∀ k, k ≠ id →
      AssocMap.find? (updateSyncStatus items id status serverData) k
        = AssocMap.find? items k) ∧
    (AssocMap.find? items id = none →
      updateSyncStatus items id status serverData = items) ∧
    (∀ (t : Task) (p : TaskPatch) (serverId : String),
      AssocMap.find? items id = some t → serverData = some p → p.id = some serverId →
      (AssocMap.find? (updateSyncStatus items id status serverData) id).map Task.id
        = some serverId) := by
  refine ⟨AssocMap.keys_mutate items id _,
    fun k hk => AssocMap.find?_mutate_ne items id k _ hk,
    fun h => AssocMap.mutate_of_find?_none items id _ h, ?_⟩
  intro t p serverId ht hsd hpid
  subst hsd
  simp [updateSyncStatus, AssocMap.find?_mutate_self, ht, Task.assign, hpid]

/-- C8, witness: a confirmed CREATE re-keys the record's id field to the
server id while the map still has the single original key. -/
theorem C8_updateSyncStatus_frame_witness :
    (AssocMap.find?
        (updateSyncStatus [("t1", task1)] "t1" .SYNCED (some serverTask1.toPatch))
        "t1").map Task.id = some "srv9" ∧
    AssocMap.keys
        (updateSyncStatus [("t1", task1)] "t1" .SYNCED (some serverTask1.toPatch))
      = ["t1"] :=
  ⟨(C8_updateSyncStatus_frame [("t1", task1)] "t1" .SYNCED
      (some serverTask1.toPatch)).2.2.2 task1 serverTask1.toPatch "srv9" rfl rfl rfl,
    (C8_updateSyncStatus_frame [("t1", task1)] "t1" .SYNCED
      (some serverTask1.toPatch)).1⟩

/-- C9: an operation failing retryably under the retry budget contributes
to neither `successCount` nor `failureCount` — only its per-operation
result records the failure — and on a one-entry queue the drain returns
`successCount = failureCount = 0` with one processed result, so the
counts sum to strictly less than the number of entries processed. -/
theorem C9_retryable_failure_uncounted (api : Api) (tasks : AssocMap Task)
    (queue : AssocMap SyncQueue) (opId : String) (op : SyncQueue) (e : APIError)
    (hret : op.retryCount < MAX_RETRIES) (hkind : op.operation ≠ .DELETE)
    (hapi : api op = .error e) (hr : e.retryable = true) :
    (processOp api tasks queue opId op).succInc = 0 ∧
    (processOp api tasks queue opId op).failInc = 0 ∧
    (processOp api tasks queue opId op).result.success = false ∧
    drainSucceeded (apiFail err503) (st1 (updateOp 0)) = some 0 ∧
    drainFailed (apiFail err503) (st1 (updateOp 0)) = some 0 ∧
    (processSyncQueue (apiFail err503) (st1 (updateOp 0))).toOption.map
        (fun out => out.summary.results.length) = some 1 := by
  rw [processOp_remote_failure_retryable api tasks queue opId op e hret hkind hapi hr]
  exact ⟨rfl, rfl, rfl, by decide, by decide, by decide⟩

/-- C9, witness: one queued UPDATE failing 503. -/
theorem C9_retryable_failure_uncounted_witness :
    (processOp (apiFail err503) [("t1", task1)] [("op1", updateOp 0)] "op1"
      (updateOp 0)).succInc = 0 ∧
    (processOp (apiFail err503) [("t1", task1)] [("op1", updateOp 0)] "op1"
      (updateOp 0)).failInc = 0 ∧
    (processOp (apiFail err503) [("t1", task1)] [("op1", updateOp 0)] "op1"
      (updateOp 0)).result.success = false ∧
    drainSucceeded (apiFail err503) (st1 (updateOp 0)) = some 0 ∧
    drainFailed (apiFail err503) (st1 (updateOp 0)) = some 0 ∧
    (processSyncQueue (apiFail err503) (st1 (updateOp 0))).toOption.map
        (fun out => out.summary.results.length) = some 1 :=
  C9_retryable_failure_uncounted (apiFail err503) [("t1", task1)] [("op1", updateOp 0)]
    "op1" (updateOp 0) err503 (by decide) (by decide) rfl rfl

/-- C10, counterexample: a queued DELETE with `retryCount = 3` is not
recorded as `success: true` — it takes the max-retries branch and is
counted as failed — refuting the claim's universal quantification over
every DELETE entry. -/
theorem C10_counterexample :
    drainFailed (apiFail err503) (st1 (deleteOp 3)) = some 1 ∧
    drainSucceeded (apiFail err503) (st1 (deleteOp 3)) = some 0 ∧
    (processSyncQueue (apiFail err503) (st1 (deleteOp 3))).toOption.map
        (fun out => out.summary.results)
      = some [{ opId := "op1", success := false, error := some "Max retries exceeded" }] := by
  refine ⟨by decide, by decide, by decide⟩

/-- C10, amended: every queued DELETE whose `retryCount < MAX_RETRIES` is
handled without any remote call, recorded as `success: true`, counted in
`successCount`, and never removed from the queue; on a one-entry DELETE
queue the drain leaves the task map and queue exactly as they were, so
an immediately repeated drain produces the same outcome again. -/
theorem C10_delete_fallthrough (api : Api) (st : RootState) (opId : String)
    (op : SyncQueue)
    (hq : st.queue = [(opId, op)]) (hon : st.network.isOnline = true)
    (hk : op.retryCount < MAX_RETRIES) (hd : op.operation = .DELETE) :
    (∀ (api' : Api) (tasks : AssocMap Task) (queue : AssocMap SyncQueue)
        (opId' : String) (op' : SyncQueue),
        op'.operation = .DELETE → op'.retryCount < MAX_RETRIES →
        (processOp api' tasks queue opId' op').remoteCalled = false ∧
        (processOp api' tasks queue opId' op').succInc = 1 ∧
        (processOp api' tasks queue opId' op').result = { opId := opId', success := true } ∧
        (processOp api' tasks queue opId' op').queue = queue ∧
        (processOp api' tasks queue opId' op').tasks = tasks) ∧
    ∃ out, processSyncQueue api st = .ok out ∧
      out.summary.successCount = 1 ∧
      AssocMap.find? out.queue opId = some op ∧
      out.queue = st.queue ∧
      out.tasks = st.tasks ∧
      processSyncQueue api { st with tasks := out.tasks, queue := out.queue }
        = processSyncQueue api st := by
  have hgen : ∀ (api' : Api) (tasks : AssocMap Task) (queue : AssocMap SyncQueue)
      (opId' : String) (op' : SyncQueue),
      op'.operation = .DELETE → op'.retryCount < MAX_RETRIES →
      (processOp api' tasks queue opId' op').remoteCalled = false ∧
      (processOp api' tasks queue opId' op').succInc = 1 ∧
      (processOp api' tasks queue opId' op').result = { opId := opId', success := true } ∧
      (processOp api' tasks queue opId' op').queue = queue ∧
      (processOp api' tasks queue opId' op').tasks = tasks := by
    intro api' tasks queue opId' op' hd' hk'
    rw [processOp_delete api' tasks queue opId' op' hk' hd']
    exact ⟨rfl, rfl, rfl, rfl, rfl⟩
  have hstep := processOp_delete api st.tasks st.queue opId op hk hd
  refine ⟨hgen, _, processSyncQueue_single api st opId op hq hon, ?_, ?_, ?_, ?_, ?_⟩
  · rw [hstep]
  · rw [hstep]
    show AssocMap.find? st.queue opId = some op
    rw [hq]
    simp [AssocMap.find?]
  · rw [hstep]
  · rw [hstep]
  · show processSyncQueue api
      { st with
        tasks := (processOp api st.tasks st.queue opId op).tasks
        queue := (processOp api st.tasks st.queue opId op).queue }
      = processSyncQueue api st
    rw [hstep]

/-- C10, witness for the amended theorem: one queued DELETE with
`retryCount = 0`. -/
theorem C10_delete_fallthrough_witness :
    (∀ (api' : Api) (tasks : AssocMap Task) (queue : AssocMap SyncQueue)
        (opId' : String) (op' : SyncQueue),
        op'.operation = .DELETE → op'.retryCount < MAX_RETRIES →
        (processOp api' tasks queue opId' op').remoteCalled = false ∧
        (processOp api' tasks queue opId' op').succInc = 1 ∧
        (processOp api' tasks queue opId' op').result = { opId := opId', success := true } ∧
        (processOp api' tasks queue opId' op').queue = queue ∧
        (processOp api' tasks queue opId' op').tasks = tasks) ∧
    ∃ out, processSyncQueue (apiFail err503) (st1 (deleteOp 0)) = .ok out ∧
      out.summary.successCount = 1 ∧
      AssocMap.find? out.queue "op1" = some (deleteOp 0) ∧
      out.queue = (st1 (deleteOp 0)).queue ∧
      out.tasks = (st1 (deleteOp 0)).tasks ∧
      processSyncQueue (apiFail err503)
          { st1 (deleteOp 0) with tasks := out.tasks, queue := out.queue }
        = processSyncQueue (apiFail err503) (st1 (deleteOp 0)) :=
  C10_delete_fallthrough (apiFail err503) (st1 (deleteOp 0)) "op1" (deleteOp 0)
    rfl (by decide) (by decide) rfl

end SyncEngine
